import Mathlib

/-!
Shallow embedding of the multi-click classifier from
`native/src/input/mouse/click.rs` of the iced repository, together with
theorems settling the specification's claims about it.

Modelling conventions:
* `Point` (from the crate root, outside the extracted sources) is modelled
  from the spec as a pair of floating-point coordinates.  Since the
  classifier only ever compares coordinates for exact equality, a
  coordinate is embedded as either NaN or a rational value, with an
  IEEE-754-style equality test under which NaN is not equal to anything
  (including itself).
* `std::time::Instant` is modelled as a nanosecond count on the monotonic
  clock (a natural number).  `Instant::duration_since` is modelled as
  saturating subtraction, matching the documented std behaviour (the
  result is zero when the argument is a later instant), and
  `Duration::as_millis` as truncating division by 10^6.
* `Click::new` reads `Instant::now()` internally; the embedding passes the
  clock reading `now` as an explicit argument, as the spec's design notes
  prescribe for an injected monotonic clock capability.
-/

namespace Iced

/-- Modelled from the spec: a floating-point coordinate of a `Point`
("semantic type: pair of floating-point coordinates").  Only equality is
ever used by the classifier, so the embedding keeps a NaN constructor and
rational finite values. -/
inductive F where
  | nan : F
  | val : Rat → F
deriving DecidableEq, Repr

/-- IEEE-754 equality on coordinates: NaN compares unequal to everything,
including itself; finite values compare by value. -/
def F.feq : F → F → Bool
  | .nan, _ => false
  | _, .nan => false
  | .val a, .val b => a == b

/-- Modelled from the spec: the 2D press position ("pair of floating-point
coordinates"). -/
structure Point where
  x : F
  y : F
deriving DecidableEq, Repr

/-- The derived `PartialEq` on `Point`: componentwise IEEE equality. -/
def Point.eq (a b : Point) : Bool :=
  F.feq a.x b.x && F.feq a.y b.y

/-- The kind of mouse click (`enum Kind` in click.rs). -/
inductive Kind where
  | Single : Kind
  | Double : Kind
  | Triple : Kind
deriving DecidableEq, Repr

/-- `Kind::next` from click.rs: Single→Double, Double→Triple,
Triple→Double. -/
def Kind.next : Kind → Kind
  | .Single => .Double
  | .Double => .Triple
  | .Triple => .Double

/-- `struct Click` from click.rs.  `time` is the monotonic instant in
nanoseconds. -/
structure Click where
  kind : Kind
  position : Point
  time : Nat
deriving DecidableEq, Repr

/-- `Click::is_consecutive` from click.rs:
`self.position == new_position && time.duration_since(self.time).as_millis() <= 300`.
Subtraction on `Nat` saturates, as `duration_since` does, and `as_millis`
truncates nanoseconds to whole milliseconds. -/
def Click.is_consecutive (self : Click) (new_position : Point) (time : Nat) : Bool :=
  Point.eq self.position new_position && (time - self.time) / 1000000 ≤ 300

/-- `Click::new` from click.rs, with the reading of `Instant::now()`
passed explicitly as `now`. -/
def Click.new (position : Point) (previous : Option Click) (now : Nat) : Click :=
  let kind :=
    match previous with
    | some previous =>
        if previous.is_consecutive position now then previous.kind.next
        else Kind.Single
    | none => Kind.Single
  { kind := kind, position := position, time := now }

/-- The sequence of clicks produced by an unbroken run of presses at a
fixed position `p`, the n-th press happening at instant `t n`, each press
fed the click returned for the previous one. -/
def clickStream (p : Point) (t : Nat → Nat) : Nat → Click
  | 0 => Click.new p none (t 0)
  | n + 1 => Click.new p (some (clickStream p t n)) (t (n + 1))

/-- The kind sequence of an unbroken consecutive run: iterate `Kind.next`
from `Single`. -/
def runKind : Nat → Kind
  | 0 => Kind.Single
  | n + 1 => (runKind n).next

/-- A concrete non-NaN point used by witnesses and counterexamples. -/
def P0 : Point := { x := F.val 10, y := F.val 10 }

/-- A second concrete point, one unit away from `P0`. -/
def P1 : Point := { x := F.val 11, y := F.val 10 }

/-- A concrete point with a NaN x-coordinate. -/
def PNaN : Point := { x := F.nan, y := F.val 10 }

end Iced

namespace Iced

/- Helper lemmas shared by the claim theorems. -/

theorem Kind.next_ne_single : ∀ k : Kind, Kind.next k ≠ Kind.Single := by
  intro k; cases k <;> simp [Kind.next]

theorem Click.new_kind_of_consecutive (prev : Click) (p : Point) (now : Nat)
    (h : prev.is_consecutive p now = true) :
    (Click.new p (some prev) now).kind = prev.kind.next := by
  simp [Click.new, h]

theorem Click.new_kind_of_not_consecutive (prev : Click) (p : Point) (now : Nat)
    (h : prev.is_consecutive p now = false) :
    (Click.new p (some prev) now).kind = Kind.Single := by
  simp [Click.new, h]

theorem clickStream_position (p : Point) (t : Nat → Nat) :
    ∀ n, (clickStream p t n).position = p := by
  intro n; cases n <;> rfl

theorem clickStream_time (p : Point) (t : Nat → Nat) :
    ∀ n, (clickStream p t n).time = t n := by
  intro n; cases n <;> rfl

theorem clickStream_kind (p : Point) (t : Nat → Nat)
    (hp : Point.eq p p = true)
    (ht : ∀ n, (t (n + 1) - t n) / 1000000 ≤ 300) :
    ∀ n, (clickStream p t n).kind = runKind n := by
  intro n
  induction n with
  | zero => rfl
  | succ n ih =>
      have hcons : (clickStream p t n).is_consecutive p (t (n + 1)) = true := by
        simp [Click.is_consecutive, clickStream_position, clickStream_time, hp, ht n]
      calc (clickStream p t (n + 1)).kind
          = (clickStream p t n).kind.next :=
            Click.new_kind_of_consecutive _ _ _ hcons
        _ = (runKind n).next := by rw [ih]
        _ = runKind (n + 1) := rfl

theorem Click.new_none_kind (p : Point) (now : Nat) :
    (Click.new p none now).kind = Kind.Single := rfl

theorem Kind.next_eq_triple : ∀ k : Kind, Kind.next k = Kind.Triple → k = Kind.Double := by
  intro k; cases k <;> simp [Kind.next]

theorem F.feq_nan_right (a : F) : F.feq a F.nan = false := by
  cases a <;> rfl

theorem F.feq_nan_left (b : F) : F.feq F.nan b = false := by
  cases b <;> rfl

theorem runKind_alternates :
    ∀ n, runKind (2 * n + 2) = Kind.Triple ∧ runKind (2 * n + 3) = Kind.Double := by
  intro n
  induction n with
  | zero => exact ⟨rfl, rfl⟩
  | succ n ih =>
      have h2 : 2 * (n + 1) + 2 = (2 * n + 3) + 1 := by ring
      have h3 : 2 * (n + 1) + 3 = ((2 * n + 3) + 1) + 1 := by ring
      constructor
      · rw [h2, show runKind ((2 * n + 3) + 1) = (runKind (2 * n + 3)).next from rfl,
          ih.2]; rfl
      · rw [h3,
          show runKind (((2 * n + 3) + 1) + 1) = (runKind (2 * n + 3)).next.next from rfl,
          ih.2]; rfl

end Iced

namespace Iced

/-- Claim C1: whenever a press is consecutive with the previous click, the
new kind is the cyclic successor of the previous kind (Single→Double,
Double→Triple, Triple→Double); hence an unbroken run of consecutive
presses at a fixed position yields kinds Single, Double, Triple, Double,
Triple, ... alternating indefinitely, and every kind is one of Single,
Double, Triple. -/
theorem claim_c1_cyclic_advance :
    (∀ (prev : Click) (p : Point) (now : Nat),
        prev.is_consecutive p now = true →
        (Click.new p (some prev) now).kind = prev.kind.next) ∧
    (Kind.next Kind.Single = Kind.Double ∧ Kind.next Kind.Double = Kind.Triple ∧
      Kind.next Kind.Triple = Kind.Double) ∧
    (∀ (p : Point) (t : Nat → Nat),
        Point.eq p p = true →
        (∀ n, (t (n + 1) - t n) / 1000000 ≤ 300) →
        ∀ n, (clickStream p t n).kind = runKind n) ∧
    (runKind 0 = Kind.Single ∧ runKind 1 = Kind.Double ∧
      (∀ n, runKind (2 * n + 2) = Kind.Triple ∧ runKind (2 * n + 3) = Kind.Double)) ∧
    (∀ k : Kind, k = Kind.Single ∨ k = Kind.Double ∨ k = Kind.Triple) := by
  refine ⟨Click.new_kind_of_consecutive, ⟨rfl, rfl, rfl⟩, clickStream_kind,
    ⟨rfl, rfl, runKind_alternates⟩, ?_⟩
  intro k; cases k <;> simp

/-- Claim C1 witness: a concrete run of presses at `P0`, 100ms apart,
whose fourth press classifies as Double again. -/
theorem claim_c1_witness :
    (clickStream P0 (fun n => 100000000 * n) 3).kind = Kind.Double := by
  have h := claim_c1_cyclic_advance.2.2.1 P0 (fun n => 100000000 * n) (by decide)
    (fun n => by
      show (100000000 * (n + 1) - 100000000 * n) / 1000000 ≤ 300
      omega)
  exact (h 3).trans rfl

/-- Claim C2 counterexample: with a previous Single click at instant 0 and
a same-position press at 300.5ms (300500000 ns), the press is treated as
consecutive (the kind advances to Double) even though the elapsed time
exceeds 300 milliseconds — refuting "consecutive iff elapsed ≤ 300ms" at
nanosecond granularity. -/
theorem claim_c2_counterexample :
    (Click.mk Kind.Single P0 0).is_consecutive P0 300500000 = true ∧
    (Click.new P0 (some (Click.mk Kind.Single P0 0)) 300500000).kind = Kind.Double ∧
    ¬ (300500000 - (Click.mk Kind.Single P0 0).time ≤ 300000000) :=
  ⟨by decide, by decide, by decide⟩

/-- Claim C2 (amended): for a same-position press, the streak advances iff
the elapsed time truncated to whole milliseconds is at most 300; exactly
300ms elapsed advances the streak, and 301ms or more resets to Single. -/
theorem claim_c2_window (prev : Click) (p : Point) (now : Nat)
    (hpos : Point.eq prev.position p = true) :
    ((Click.new p (some prev) now).kind = prev.kind.next ↔
      (now - prev.time) / 1000000 ≤ 300) ∧
    (now - prev.time = 300000000 → (Click.new p (some prev) now).kind = prev.kind.next) ∧
    (301000000 ≤ now - prev.time → (Click.new p (some prev) now).kind = Kind.Single) := by
  refine ⟨?_, ?_, ?_⟩
  · constructor
    · intro hk
      by_contra hm
      have hc : prev.is_consecutive p now = false := by
        simp [Click.is_consecutive, hpos, hm]
      rw [Click.new_kind_of_not_consecutive prev p now hc] at hk
      exact Kind.next_ne_single prev.kind hk.symm
    · intro hm
      have hc : prev.is_consecutive p now = true := by
        simp [Click.is_consecutive, hpos, hm]
      exact Click.new_kind_of_consecutive prev p now hc
  · intro hd
    have hc : prev.is_consecutive p now = true := by
      simp [Click.is_consecutive, hpos, hd]
    exact Click.new_kind_of_consecutive prev p now hc
  · intro hd
    have hm : ¬ (now - prev.time) / 1000000 ≤ 300 := by omega
    have hc : prev.is_consecutive p now = false := by
      simp [Click.is_consecutive, hpos, hm]
    exact Click.new_kind_of_not_consecutive prev p now hc

/-- Claim C2 witness: at exactly 300ms elapsed the kind advances from
Single to Double. -/
theorem claim_c2_witness :
    (Click.new P0 (some (Click.mk Kind.Single P0 0)) 300000000).kind = Kind.Double :=
  ((claim_c2_window (Click.mk Kind.Single P0 0) P0 300000000 (by decide)).2.1
    (by decide)).trans rfl

/-- Claim C3: a press with no previous click always classifies as
Single. -/
theorem claim_c3_first_press (p : Point) (now : Nat) :
    (Click.new p none now).kind = Kind.Single :=
  Click.new_none_kind p now

/-- Claim C4: a press at a position that does not compare equal to the
previous click's position classifies as Single, regardless of the elapsed
time. -/
theorem claim_c4_reset_on_movement (prev : Click) (p : Point) (now : Nat)
    (h : Point.eq prev.position p = false) :
    (Click.new p (some prev) now).kind = Kind.Single := by
  apply Click.new_kind_of_not_consecutive
  simp [Click.is_consecutive, h]

/-- Claim C4 witness: a press one unit away from the previous click, with
zero elapsed time, resets to Single. -/
theorem claim_c4_witness :
    (Click.new P1 (some (Click.mk Kind.Double P0 0)) 0).kind = Kind.Single :=
  claim_c4_reset_on_movement (Click.mk Kind.Double P0 0) P1 0 (by decide)

/-- Claim C5: `Click::new` is total — for every position, every optional
previous click (including one whose timestamp is not earlier than the
current instant, where the elapsed duration saturates to zero), and every
clock reading, it returns a Click whose kind is Single, Double or
Triple. -/
theorem claim_c5_total (p : Point) (prev : Option Click) (now : Nat) :
    (Click.new p prev now).kind = Kind.Single ∨
    (Click.new p prev now).kind = Kind.Double ∨
    (Click.new p prev now).kind = Kind.Triple := by
  cases h : (Click.new p prev now).kind <;> simp

/-- Claim C6: the returned Click records the input position and the clock
reading taken at the start of the call, and neither field depends on the
previous click. -/
theorem claim_c6_fields (p : Point) (prev : Option Click) (now : Nat) :
    (Click.new p prev now).position = p ∧ (Click.new p prev now).time = now ∧
    (∀ prev' : Option Click,
      (Click.new p prev now).position = (Click.new p prev' now).position ∧
      (Click.new p prev now).time = (Click.new p prev' now).time) :=
  ⟨rfl, rfl, fun _ => ⟨rfl, rfl⟩⟩

/-- Claim C7 counterexample: two calls with the same position and the same
previous click, differing only in how far the clock has advanced, can
return different kinds — the first call (0ms elapsed) yields Double, the
second (400ms elapsed) yields Single — refuting "two calls with the same
position and same previous yield identical kind". -/
theorem claim_c7_counterexample :
    (Click.new P0 (some (Click.mk Kind.Single P0 0)) 0).kind ≠
      (Click.new P0 (some (Click.mk Kind.Single P0 0)) 400000000).kind := by
  decide

/-- Claim C7 (amended): `Click::new` is a pure function of its arguments
(it receives `previous` by value and never mutates it), and two calls with
the same position and same previous yield identical kinds provided the
consecutiveness test evaluates the same at both instants — in particular
whenever the clock advancement between the calls does not cross the 300ms
window boundary. -/
theorem claim_c7_deterministic (p : Point) (prev : Option Click) (n1 n2 : Nat)
    (h : prev.all (fun c => c.is_consecutive p n1 == c.is_consecutive p n2) = true) :
    (Click.new p prev n1).kind = (Click.new p prev n2).kind := by
  cases prev with
  | none => rfl
  | some c =>
      have h' : c.is_consecutive p n1 = c.is_consecutive p n2 := by
        simpa using h
      simp [Click.new, h']

/-- Claim C7 witness: two calls 1ms apart, both inside the window, return
the same kind. -/
theorem claim_c7_witness :
    (Click.new P0 (some (Click.mk Kind.Single P0 0)) 0).kind =
      (Click.new P0 (some (Click.mk Kind.Single P0 0)) 1000000).kind :=
  claim_c7_deterministic P0 (some (Click.mk Kind.Single P0 0)) 0 1000000 (by decide)

/-- Claim C8: the consecutiveness test truncates the elapsed time to whole
milliseconds, so a same-position press whose true elapsed time lies
strictly between 300ms and 301ms still counts as consecutive and advances
the streak. -/
theorem claim_c8_truncation (prev : Click) (p : Point) (now : Nat)
    (hpos : Point.eq prev.position p = true)
    (h1 : 300000000 < now - prev.time) (h2 : now - prev.time < 301000000) :
    prev.is_consecutive p now = true ∧
    (Click.new p (some prev) now).kind = prev.kind.next := by
  have hm : (now - prev.time) / 1000000 ≤ 300 := by omega
  have hc : prev.is_consecutive p now = true := by
    simp [Click.is_consecutive, hpos, hm]
  exact ⟨hc, Click.new_kind_of_consecutive prev p now hc⟩

/-- Claim C8 witness: a press at 300.5ms elapsed still advances Single to
Double. -/
theorem claim_c8_witness :
    (Click.mk Kind.Single P0 0).is_consecutive P0 300500000 = true ∧
    (Click.new P0 (some (Click.mk Kind.Single P0 0)) 300500000).kind = Kind.Single.next :=
  claim_c8_truncation (Click.mk Kind.Single P0 0) P0 300500000
    (by decide) (by decide) (by decide)

/-- Claim C9: a Triple classification can only arise from a supplied
previous click whose kind was Double and with which the new press was
consecutive. -/
theorem claim_c9_triple_inversion (p : Point) (prev : Option Click) (now : Nat)
    (h : (Click.new p prev now).kind = Kind.Triple) :
    ∃ c, prev = some c ∧ c.kind = Kind.Double ∧ c.is_consecutive p now = true := by
  cases prev with
  | none =>
      rw [Click.new_none_kind] at h
      exact absurd h (by simp)
  | some c =>
      cases hb : c.is_consecutive p now with
      | false =>
          rw [Click.new_kind_of_not_consecutive c p now hb] at h
          exact absurd h (by simp)
      | true =>
          rw [Click.new_kind_of_consecutive c p now hb] at h
          exact ⟨c, rfl, Kind.next_eq_triple c.kind h, hb⟩

/-- Claim C9 witness: a Triple produced from a consecutive press over a
Double click satisfies the inversion. -/
theorem claim_c9_witness :
    ∃ c, some (Click.mk Kind.Double P0 0) = some c ∧ c.kind = Kind.Double ∧
      c.is_consecutive P0 100 = true :=
  claim_c9_triple_inversion P0 (some (Click.mk Kind.Double P0 0)) 100 (by decide)

/-- Claim C10: if either the new position or the previous position carries
a NaN coordinate, the exact equality test fails (NaN is not equal to
itself), so the press classifies as Single no matter how little time has
elapsed. -/
theorem claim_c10_nan (prev : Click) (p : Point) (now : Nat)
    (h : p.x = F.nan ∨ p.y = F.nan ∨ prev.position.x = F.nan ∨ prev.position.y = F.nan) :
    (Click.new p (some prev) now).kind = Kind.Single := by
  apply Click.new_kind_of_not_consecutive
  have hpe : Point.eq prev.position p = false := by
    rcases h with h | h | h | h <;>
      simp [Point.eq, h, F.feq_nan_right, F.feq_nan_left]
  simp [Click.is_consecutive, hpe]

/-- Claim C10 witness: a press at a NaN-bearing position identical to the
previous click's position, with zero elapsed time, still yields Single. -/
theorem claim_c10_witness :
    (Click.new PNaN (some (Click.mk Kind.Single PNaN 0)) 0).kind = Kind.Single :=
  claim_c10_nan (Click.mk Kind.Single PNaN 0) PNaN 0 (Or.inl rfl)

end Iced
